import Mathlib

/-
Verification of the claim-processing pipeline in `backend_logic.py`
(vehicle_insurance_agentic_ai_v2).

The Python code is shallowly embedded: JSON-shaped Python values become the
inductive `Json`, Python truthiness becomes `pyTruthy`, raising code returns
`Except PyErr`, and stateful/side-effecting code returns explicit effect lists.
Every definition is translated from the source file, keeping the names of the source
 where Lean allows it.
-/

namespace VehicleClaims

/-- JSON-shaped Python values as produced by `json.loads` and passed around
the pipeline.  Objects keep insertion order, as Python dicts do. -/
inductive Json where
  | null
  | bool (b : Bool)
  | num (n : Int)
  | str (s : String)
  | arr (items : List Json)
  | obj (fields : List (String × Json))

/-- Python exceptions that the embedded code can raise. -/
inductive PyErr where
  | valueError
  | typeError
  | keyError
  | indexError
  | attributeError
deriving DecidableEq, Repr

/-- Python truthiness (`bool(x)` / `if x:`) on JSON-shaped values. -/
def pyTruthy : Json → Bool
  | .null => false
  | .bool b => b
  | .num n => n != 0
  | .str s => s != ""
  | .arr l => !l.isEmpty
  | .obj m => !m.isEmpty

/-- Python `dict.get(k)` on an association list (first binding wins, as in a
dict there is at most one). -/
def dGet (m : List (String × Json)) (k : String) : Option Json :=
  m.lookup k

/-- Python `dict.get(k, d)` with a default. -/
def dGetD (m : List (String × Json)) (k : String) (d : Json) : Json :=
  (m.lookup k).getD d

/-- Lookup of a key on a `Json` value known to be an object (`none` otherwise). -/
def jGet (j : Json) (k : String) : Option Json :=
  match j with
  | .obj m => m.lookup k
  | _ => none

/-- Two-level lookup: `j[k][sk]` when both levels are objects. -/
def jGet2 (j : Json) (k sk : String) : Option Json :=
  match jGet j k with
  | some (.obj s) => s.lookup sk
  | _ => none

/-- Python `dict[k] = v`: replace in place if the key exists, else append. -/
def setKey : List (String × Json) → String → Json → List (String × Json)
  | [], k, v => [(k, v)]
  | (k0, v0) :: t, k, v => if k0 = k then (k0, v) :: t else (k0, v0) :: setKey t k v

/-- Python `a or b` on JSON-shaped values: the first operand if truthy, else
the second. -/
def pyOr (a b : Json) : Json :=
  if pyTruthy a then a else b

/-- Except result is a success. -/
def isOkE : Except PyErr α → Bool
  | .ok _ => true
  | .error _ => false

/-! ## `safe_extract` (backend_logic.py lines 63-74) -/

/-- Loop body of `safe_extract` on a list: the first item that is a dict
containing a `"value"` key yields that entry. -/
def findValue : List Json → Option Json
  | [] => none
  | item :: rest =>
    match item with
    | .obj m => if (m.lookup "value").isSome then m.lookup "value" else findValue rest
    | _ => findValue rest

/-- Embedding of `safe_extract` (extract value from Document AI output):
falsy input gives `None`; a list gives the `"value"` entry of its first
dict-with-`"value"` item, else its first element; a dict gives its `"value"`
entry (`None` when absent); anything else is returned unchanged. -/
def safe_extract (field : Json) : Json :=
  if !pyTruthy field then .null
  else match field with
  | .arr items => (findValue items).getD (items.headD .null)
  | .obj m => (m.lookup "value").getD .null
  | f => f

/-! ## `parse_date` (backend_logic.py lines 76-91)

`datetime.strptime` is modelled per the CPython module `_strptime`: each directive
compiles to a digit pattern (`%d` : `3[01]|[12]\d|0[1-9]|[1-9]`, `%m` :
`1[0-2]|0[1-9]|[1-9]`, `%Y` : exactly four digits, `%y` : exactly two digits,
mapped through the POSIX pivot 68/69), the whole string must be consumed, and
the resulting calendar date must be valid. -/

/-- Calendar date as produced by `datetime.date`. -/
structure Date where
  year : Nat
  month : Nat
  day : Nat
deriving DecidableEq, Repr

/-- Gregorian leap-year rule, as used by `datetime`. -/
def isLeap (y : Nat) : Bool :=
  y % 4 == 0 && (y % 100 != 0 || y % 400 == 0)

/-- Days in a month for a given year, as validated by `datetime`. -/
def daysInMonth (y m : Nat) : Nat :=
  if m == 2 then (if isLeap y then 29 else 28)
  else if m == 4 || m == 6 || m == 9 || m == 11 then 30
  else 31

/-- Construction of a `datetime.date`: validates the day against the month
length (month range and day lower bound are already enforced by the format
patterns) and the year range 1..9999. -/
def mkDate (y m d : Nat) : Option Date :=
  if 1 ≤ y ∧ y ≤ 9999 ∧ d ≤ daysInMonth y m then some ⟨y, m, d⟩ else none

/-- Decimal digit of a character, if any. -/
def digitVal (c : Char) : Option Nat :=
  if c.isDigit then some (c.toNat - 48) else none

/-- Parser for `%d`: two digits when they form 01..31, else one digit 1..9. -/
def pDay : List Char → Option (Nat × List Char)
  | a :: b :: rest =>
    match digitVal a, digitVal b with
    | some x, some y =>
      let v := 10 * x + y
      if 1 ≤ v ∧ v ≤ 31 then some (v, rest)
      else if 1 ≤ x ∧ x ≤ 9 then some (x, b :: rest) else none
    | some x, _ => if 1 ≤ x ∧ x ≤ 9 then some (x, b :: rest) else none
    | _, _ => none
  | [a] =>
    match digitVal a with
    | some x => if 1 ≤ x ∧ x ≤ 9 then some (x, []) else none
    | none => none
  | [] => none

/-- Parser for `%m`: two digits when they form 01..12, else one digit 1..9. -/
def pMonth : List Char → Option (Nat × List Char)
  | a :: b :: rest =>
    match digitVal a, digitVal b with
    | some x, some y =>
      let v := 10 * x + y
      if 1 ≤ v ∧ v ≤ 12 then some (v, rest)
      else if 1 ≤ x ∧ x ≤ 9 then some (x, b :: rest) else none
    | some x, _ => if 1 ≤ x ∧ x ≤ 9 then some (x, b :: rest) else none
    | _, _ => none
  | [a] =>
    match digitVal a with
    | some x => if 1 ≤ x ∧ x ≤ 9 then some (x, []) else none
    | none => none
  | [] => none

/-- Parser for `%Y`: exactly four digits. -/
def pYear4 : List Char → Option (Nat × List Char)
  | a :: b :: c :: d :: rest =>
    match digitVal a, digitVal b, digitVal c, digitVal d with
    | some w, some x, some y, some z => some (1000 * w + 100 * x + 10 * y + z, rest)
    | _, _, _, _ => none
  | _ => none

/-- Parser for the raw two digits of `%y`. -/
def pYear2raw : List Char → Option (Nat × List Char)
  | a :: b :: rest =>
    match digitVal a, digitVal b with
    | some x, some y => some (10 * x + y, rest)
    | _, _ => none
  | _ => none

/-- CPython `_strptime` two-digit-year resolution: 00..68 map into the 2000s,
69..99 into the 1900s. -/
def resolveY2 (v : Nat) : Nat :=
  if v ≤ 68 then 2000 + v else 1900 + v

/-- Literal separator character in a format. -/
def pLit (c : Char) : List Char → Option (List Char)
  | x :: rest => if x = c then some rest else none
  | [] => none

/-- strptime for `D sep M sep year` shaped formats (`dayFirst` selects whether
the first component is `%d` or `%m`); `year` already fully resolved. -/
def pSlashed (dayFirst : Bool) (sep : Char)
    (pYear : List Char → Option (Nat × List Char)) (cs : List Char) : Option Date := do
  let (v1, r1) ← (if dayFirst then pDay else pMonth) cs
  let r2 ← pLit sep r1
  let (v2, r3) ← (if dayFirst then pMonth else pDay) r2
  let r4 ← pLit sep r3
  let (y, r5) ← pYear r4
  if r5.isEmpty then
    if dayFirst then mkDate y v2 v1 else mkDate y v1 v2
  else none

/-- strptime for `%Y-%m-%d`. -/
def pIso (cs : List Char) : Option Date := do
  let (y, r1) ← pYear4 cs
  let r2 ← pLit '-' r1
  let (m, r3) ← pMonth r2
  let r4 ← pLit '-' r3
  let (d, r5) ← pDay r4
  if r5.isEmpty then mkDate y m d else none

/-- Two-digit year parser composed with the POSIX pivot. -/
def pYear2 (cs : List Char) : Option (Nat × List Char) :=
  (pYear2raw cs).map (fun p => (resolveY2 p.1, p.2))

/-- The format list of `parse_date`, in source order. -/
def formats : List String := ["%d/%m/%Y", "%d/%m/%y", "%m/%d/%Y", "%m/%d/%y", "%Y-%m-%d"]

/-- `datetime.strptime(value, fmt)` for the five formats used by `parse_date`. -/
def strptime (fmt : String) (value : String) : Option Date :=
  match fmt with
  | "%d/%m/%Y" => pSlashed true '/' pYear4 value.toList
  | "%d/%m/%y" => pSlashed true '/' pYear2 value.toList
  | "%m/%d/%Y" => pSlashed false '/' pYear4 value.toList
  | "%m/%d/%y" => pSlashed false '/' pYear2 value.toList
  | "%Y-%m-%d" => pIso value.toList
  | _ => none

/-- Prefix test on character lists. -/
def listPrefix : List Char → List Char → Bool
  | [], _ => true
  | _ :: _, [] => false
  | a :: as, b :: bs => a == b && listPrefix as bs

/-- Occurrence of a character sequence anywhere in another. -/
def containsSeq (sub : List Char) : List Char → Bool
  | [] => listPrefix sub []
  | c :: t => listPrefix sub (c :: t) || containsSeq sub t

/-- Python substring test `sub in s`. -/
def pyIn (sub s : String) : Bool :=
  containsSeq sub.toList s.toList

/-- Python whitespace characters (ASCII), as stripped by `str.strip()`. -/
def isWsPy (c : Char) : Bool :=
  c == ' ' || c == '\t' || c == '\n' || c == '\r' || c == '\x0b' || c == '\x0c'

/-- Python `value.strip()`: drop leading and trailing whitespace. -/
def pyStrip (s : String) : String :=
  String.mk (((s.toList.dropWhile isWsPy).reverse.dropWhile isWsPy).reverse)

/-- `date.replace(year=y)`: revalidates the day against the new year. -/
def replaceYear (d : Date) (y : Nat) : Option Date :=
  if 1 ≤ y ∧ y ≤ 9999 ∧ d.day ≤ daysInMonth y d.month then some { d with year := y } else none

/-- The `parse_date` two-digit-year windowing line:
`if "%y" in fmt and dt.year < 1930: dt = dt.replace(year=dt.year + 100)`. -/
def fixY2 (fmt : String) (d : Date) : Option Date :=
  if pyIn "%y" fmt && decide (d.year < 1930) then replaceYear d (d.year + 100) else some d

/-- One iteration of the `parse_date` format loop: strptime, then the
two-digit-year windowing; any `ValueError` along the way means failure. -/
def tryFormat (fmt : String) (value : String) : Option Date :=
  (strptime fmt value).bind (fixY2 fmt)

/-- Embedding of `parse_date` on a string: empty input is falsy and returns
`None`; otherwise the input is stripped and the formats are tried in order,
the first success winning; no match returns `None`. -/
def parse_date (value : String) : Option Date :=
  if value = "" then none
  else formats.findSome? (fun fmt => tryFormat fmt (pyStrip value))

/-- Embedding of `parse_date` on a JSON-shaped value: falsy or non-string
input returns `None`. -/
def parse_date_py (value : Json) : Option Date :=
  match value with
  | .str s => parse_date s
  | _ => none

/-- ISO-8601 rendering `date.isoformat()`. -/
def pad2 (n : Nat) : String :=
  if n < 10 then "0" ++ toString n else toString n

/-- ISO string of a date, as produced by `normalize_dates`. -/
def Date.iso (d : Date) : String :=
  toString d.year ++ "-" ++ pad2 d.month ++ "-" ++ pad2 d.day

/-- `normalize_dates` applied to an optional date field: date objects become
ISO strings, `None` stays `None`. -/
def dateToJson : Option Date → Json
  | some d => .str d.iso
  | none => .null

/-! ## `normalize_comparison` (backend_logic.py lines 115-138) -/

/-- The fixed comparison-verdict schema, with its ten boolean leaves in the
key order of the source. -/
def mkVerdict (b1 b2 b3 b4 b5 b6 b7 b8 b9 b10 : Bool) : Json :=
  .obj [("name", .obj [("claim_table", .bool b1)]),
        ("license_no", .obj [("claim_table", .bool b2), ("dl_table", .bool b3)]),
        ("address", .obj [("claim_table", .bool b4), ("dl_table", .bool b5)]),
        ("car_make", .obj [("claim_car", .bool b6)]),
        ("car_model", .obj [("claim_car", .bool b7)]),
        ("car_color", .obj [("claim_car", .bool b8)]),
        ("damage_details", .obj [("claim_car", .bool b9)]),
        ("license_validity", .bool b10)]

/-- The `if not isinstance(field_data, dict): field_data = {}` coercion. -/
def asDict : Json → List (String × Json)
  | .obj m => m
  | _ => []

/-- Subfield normalization: `bool(field_data.get(subkey, False))` where
`field_data = data.get(key, {})` coerced to a dict. -/
def normSub (m : List (String × Json)) (k sk : String) : Bool :=
  pyTruthy (((asDict (dGetD m k (.obj []))).lookup sk).getD (.bool false))

/-- Embedding of `normalize_comparison`: non-dict input yields the all-false
schema; a dict input has each schema subfield filled from
`bool(data.get(key, {}).get(subkey, False))` and `license_validity` from
`bool(data.get("license_validity", False))`. -/
def normalize_comparison (data : Json) : Json :=
  match data with
  | .obj m =>
    mkVerdict (normSub m "name" "claim_table")
      (normSub m "license_no" "claim_table") (normSub m "license_no" "dl_table")
      (normSub m "address" "claim_table") (normSub m "address" "dl_table")
      (normSub m "car_make" "claim_car") (normSub m "car_model" "claim_car")
      (normSub m "car_color" "claim_car") (normSub m "damage_details" "claim_car")
      (pyTruthy (dGetD m "license_validity" (.bool false)))
  | _ => mkVerdict false false false false false false false false false false

/-! ## Decision rule of `compare_and_email` (backend_logic.py lines 320-345) -/

/-- The `required_fields` list, in source order. -/
def required_fields : List (String × List String) :=
  [("name", ["claim_table"]),
   ("license_no", ["claim_table", "dl_table"]),
   ("address", ["claim_table", "dl_table"]),
   ("car_make", ["claim_car"]),
   ("car_model", ["claim_car"]),
   ("car_color", ["claim_car"]),
   ("damage_details", ["claim_car"]),
   ("license_validity", [])]

/-- `comparison.get(field, {})` with the Python behavior that `.get` on a
non-dict raises `AttributeError`. -/
def pyGetD (j : Json) (k : String) (d : Json) : Except PyErr Json :=
  match j with
  | .obj m => .ok (dGetD m k d)
  | _ => .error .attributeError

/-- Inner subfield check: `if field_result.get(sub) is not True: all_match = False`. -/
def subCheck (m : List (String × Json)) (acc : Bool) (sub : String) : Bool :=
  match m.lookup sub with
  | some (.bool true) => acc
  | _ => false

/-- One iteration of the decision loop over `required_fields`.  For
`license_validity` a dict is unwrapped through its `"value"` entry and
`all_match` is ASSIGNED `bool(field_result)`; for the other fields each
required subfield not identically `True` forces `all_match` to `False`. -/
def stepField (c : Json) (acc : Bool) (f : String × List String) : Except PyErr Bool := do
  let field_result ← pyGetD c f.1 (.obj [])
  if f.1 = "license_validity" then
    let fr := match field_result with
      | .obj m => dGetD m "value" (.bool false)
      | x => x
    pure (pyTruthy fr)
  else
    match field_result with
    | .obj m => pure (f.2.foldl (subCheck m) acc)
    | _ => .error .attributeError

/-- The whole decision loop: fold of `stepField` over `required_fields`
starting from `all_match = True`. -/
def allMatch (c : Json) : Except PyErr Bool :=
  required_fields.foldlM (stepField c) true

/-- `decision = "Claim Accepted" if all_match else "Claim Rejected"`. -/
def decisionOf (c : Json) : Except PyErr String :=
  (allMatch c).map (fun b => if b then "Claim Accepted" else "Claim Rejected")

/-- Normalization followed by the decision loop, as executed by
`compare_and_email` on the parsed model verdict. -/
def compareDecision (parsed : Json) : Except PyErr String :=
  decisionOf (normalize_comparison parsed)

/-- The `license_validity` leaf of the normalized verdict, as a plain Bool. -/
def normLV (data : Json) : Bool :=
  match data with
  | .obj m => pyTruthy (dGetD m "license_validity" (.bool false))
  | _ => false

/-! ## `extract_dl` (backend_logic.py lines 156-216)

The document-understanding call itself is external; its parsed JSON response
is the `result` parameter.  The table fetch is the `fetch` oracle (exceptions
during the fetch are already swallowed by the try/except of the source, so an
oracle returning `Option` is faithful).  Side effects on the persistent table
are recorded in an explicit effect list. -/

/-- Side effects of `extract_dl` on the persistent license table. -/
inductive DlEffect where
  | lookup (lic : String)
  | upsert (lic : String)
deriving DecidableEq, Repr

/-- Successful outcome of `extract_dl`: the normalized record, the fetched
historical row, and the single step-log entry. -/
structure DlOut where
  dl : List (String × Json)
  table_row : Option Json
  step : String

/-- Character class `[\w-]` of the license-number pattern (ASCII word
characters or a hyphen). -/
def wordOrHyphen (c : Char) : Bool :=
  c.isAlphanum || c = '_' || c = '-'

/-- Python `re.match(r` followed by the anchored word pattern `, s)` as a
boolean: a nonempty run of `[\w-]` characters spanning the string, where `$`
also accepts a single trailing newline. -/
def licenseRegexOk (s : String) : Bool :=
  let ok := fun (l : List Char) => !l.isEmpty && l.all wordOrHyphen
  ok s.toList || (s.toList.getLast? == some '\n' && ok s.toList.dropLast)

/-- The nine-field `dl_record_full` built from the extraction result, with
dates parsed and then canonicalized by `normalize_dates`. -/
def mkDlRecord (mr : List (String × Json)) : List (String × Json) :=
  let g := fun (k : String) => dGetD mr k .null
  [("FULL_NAME", pyOr (safe_extract (g "name")) (.str "Unknown")),
   ("LICENSE_NUMBER", safe_extract (g "license_no")),
   ("ADDRESS", safe_extract (g "address")),
   ("DATE_OF_BIRTH", dateToJson (parse_date_py (safe_extract (g "dob")))),
   ("ISSUE_DATE", dateToJson (parse_date_py (safe_extract (g "issue_date")))),
   ("EXPIRY_DATE", dateToJson (parse_date_py (safe_extract (g "expiry_date")))),
   ("ENDORSEMENTS", pyOr (safe_extract (g "endorsements")) (.str "")),
   ("SEX", safe_extract (g "sex")),
   ("HEIGHT", safe_extract (g "height"))]

/-- Embedding of `extract_dl` after the extraction-service call: builds
`dl_record_full`; when the license number is truthy it must be a string
(`re.match` on a non-string raises `TypeError`) matching the anchored word
pattern (otherwise `ValueError` is raised); a valid number is looked up and
then merged; a falsy number skips both and is surfaced via the step entry. -/
def extract_dl (result : Json) (fetch : String → Option Json) :
    List DlEffect × Except PyErr DlOut :=
  match result with
  | .obj mr =>
    let record := mkDlRecord mr
    let license := safe_extract (dGetD mr "license_no" .null)
    if pyTruthy license then
      match license with
      | .str s =>
        if licenseRegexOk s then
          ([.lookup s, .upsert s],
           .ok ⟨record, fetch s, "Driver\x27s License Extracted & Stored"⟩)
        else ([], .error .valueError)
      | _ => ([], .error .typeError)
    else
      ([], .ok ⟨record, none, "DL Extracted (Not Stored: Missing License Number)"⟩)
  | _ => ([], .error .attributeError)

/-! ## `extract_claim` (backend_logic.py lines 218-229)

The color heuristic applies `re.search(r"Color:` `\s*(.+?)(,|$)", text,
re.IGNORECASE)`.  The regex engine is modelled directly: leftmost starting
position, greedy `\s*` with backtracking, lazy `(.+?)` whose characters
cannot be newlines, and `$` matching at the end of the string or before a
single trailing newline. -/

/-- Regex whitespace class characters. -/
def isWsRe (c : Char) : Bool :=
  c == ' ' || c == '\t' || c == '\n' || c == '\r' || c == '\x0b' || c == '\x0c'

/-- Length of the maximal leading regex-whitespace run. -/
def countWs : List Char → Nat
  | c :: t => if isWsRe c then countWs t + 1 else 0
  | [] => 0

/-- Lazy `(.+?)(,|$)` on the remainder after the whitespace: shortest
non-empty newline-free prefix followed by a comma, the end of the string, or
a single trailing newline. -/
def tryBody (b : List Char) : Option String :=
  (List.range b.length).findSome? fun g0 =>
    let g := g0 + 1
    let grp := b.take g
    let rest := b.drop g
    if grp.all (fun c => c != '\n') &&
        (rest.head? == some ',' || rest.isEmpty || rest == ['\n'])
    then some (String.mk grp) else none

/-- Attempt of the full pattern at one starting position: the literal
`Color:` case-insensitively, then greedy backtracking whitespace, then the
lazy body. -/
def matchColor (cs : List Char) : Option String :=
  if (cs.take 6).map Char.toLower == "color:".toList && decide (6 ≤ cs.length) then
    let rest := cs.drop 6
    ((List.range (countWs rest + 1)).reverse).findSome? fun w => tryBody (rest.drop w)
  else none

/-- Leftmost search of the pattern over all starting positions. -/
def searchColor : List Char → Option String
  | [] => none
  | c :: t => (matchColor (c :: t)).orElse (fun _ => searchColor t)

/-- Embedding of `re.search` for the color pattern on a string. -/
def colorSearch (s : String) : Option String :=
  searchColor s.toList

/-- Python `x[0]` on a JSON-shaped value: list head (or `IndexError`),
one-character string (or `IndexError`), `KeyError` on a dict whose keys are
strings, `TypeError` otherwise. -/
def pyIndexZero : Json → Except PyErr Json
  | .arr [] => .error .indexError
  | .arr (x :: _) => .ok x
  | .str s =>
    match s.toList with
    | [] => .error .indexError
    | c :: _ => .ok (.str (String.mk [c]))
  | .obj _ => .error .keyError
  | _ => .error .typeError

/-- The text fetched by one loop iteration of `extract_claim`:
`result.get(field, [` `{}` `])[0].get("value", "")`, which must end in a
string for `re.search` to accept it. -/
def fieldText (m : List (String × Json)) (fld : String) : Except PyErr String := do
  let fv := dGetD m fld (.arr [.obj []])
  let x ← pyIndexZero fv
  let tj ← match x with
    | .obj xm => Except.ok (dGetD xm "value" (.str ""))
    | _ => Except.error PyErr.attributeError
  match tj with
  | .str t => Except.ok t
  | _ => Except.error PyErr.typeError

/-- Injection of the synthesized color field:
`result["car_color"] = [{"value": match.group(1).strip()}]`. -/
def injectColor (m : List (String × Json)) (c : String) : Json :=
  .obj (setKey m "car_color" (.arr [.obj [("value", .str (pyStrip c))]]))

/-- Embedding of `extract_claim` after the extraction-service call: inspects
`description` then `vehicle`, breaking on the first color match; the result
is returned unchanged when neither matches. -/
def extract_claim (result : Json) : Except PyErr Json :=
  match result with
  | .obj m =>
    match fieldText m "description" with
    | .error e => .error e
    | .ok t1 =>
      match colorSearch t1 with
      | some c => .ok (injectColor m c)
      | none =>
        match fieldText m "vehicle" with
        | .error e => .error e
        | .ok t2 =>
          match colorSearch t2 with
          | some c => .ok (injectColor m c)
          | none => .ok (.obj m)
  | _ => .error .attributeError

/-! ## Pipeline orchestration (backend_logic.py lines 371-388)

The StateGraph built by `run_claim_processing_workflow` is a linear chain:
entry point `upload`, one outgoing edge per node, terminating at the END
sentinel.  Invocation runs the chain sequentially over the shared state;
each node returns a partial update whose `steps` component is appended
(`Annotated[list, operator.add]`); an exception in a node propagates and no
final state is produced. -/

/-- The edges added by `run_claim_processing_workflow`, with the END sentinel. -/
def graph_edges : List (String × String) :=
  [("upload", "extract_dl"), ("extract_dl", "extract_claim"),
   ("extract_claim", "extract_car"), ("extract_car", "compare_email"),
   ("compare_email", "__end__")]

/-- The entry point set by `set_entry_point("upload")`. -/
def entry_point : String := "upload"

/-- Node sequence obtained by following the edges from a node until END
(fuelled recursion; the graph is finite). -/
def chainFrom : Nat → String → List String
  | 0, _ => []
  | k + 1, n =>
    if n = "__end__" then []
    else match graph_edges.lookup n with
      | some m => n :: chainFrom k m
      | none => [n]

/-- Execution order of the compiled graph. -/
def pipelineOrder : List String :=
  chainFrom (graph_edges.length + 1) entry_point

/-- Sequential execution of a node list over a state and an accumulated step
log; a node failure aborts with no final state. -/
def runNodes (f : String → σ → Except ε (σ × List String)) :
    List String → σ × List String → Except ε (σ × List String)
  | [], st => .ok st
  | n :: rest, (s, log) =>
    match f n s with
    | .error e => .error e
    | .ok (s2, entries) => runNodes f rest (s2, log ++ entries)

/-- Embedding of `run_claim_processing_workflow`: invoke the compiled linear
graph on an initial state with an empty step log, abstracting each node as a
function from the state to a partial update (new state plus appended steps). -/
def run_claim_processing_workflow (f : String → σ → Except ε (σ × List String))
    (s0 : σ) : Except ε (σ × List String) :=
  runNodes f pipelineOrder (s0, [])

/-! ## Helper lemmas -/

/-- The decision loop on any value of the fixed schema returns exactly the
`license_validity` leaf: the final iteration assigns `all_match` instead of
conjoining it. -/
theorem allMatch_mkVerdict (b1 b2 b3 b4 b5 b6 b7 b8 b9 b10 : Bool) :
    allMatch (mkVerdict b1 b2 b3 b4 b5 b6 b7 b8 b9 b10) = .ok b10 := rfl

/-- Lookup of the `license_validity` leaf on the fixed schema. -/
theorem jGet_mkVerdict_lv (b1 b2 b3 b4 b5 b6 b7 b8 b9 b10 : Bool) :
    jGet (mkVerdict b1 b2 b3 b4 b5 b6 b7 b8 b9 b10) "license_validity" =
      some (.bool b10) := rfl

/-! ## Claim theorems -/

/-- Concrete parsed verdict for C1: every required check true except
`name.claim_table`, and `license_validity` true. -/
def c1_verdict : Json :=
  .obj [("name", .obj [("claim_table", .bool false)]),
        ("license_no", .obj [("claim_table", .bool true), ("dl_table", .bool true)]),
        ("address", .obj [("claim_table", .bool true), ("dl_table", .bool true)]),
        ("car_make", .obj [("claim_car", .bool true)]),
        ("car_model", .obj [("claim_car", .bool true)]),
        ("car_color", .obj [("claim_car", .bool true)]),
        ("damage_details", .obj [("claim_car", .bool true)]),
        ("license_validity", .bool true)]

/-- Claim C1 (code bug evaluation): on a normalized verdict whose required
check `name.claim_table` is `false` but whose `license_validity` is `true`,
the code decides "Claim Accepted".  The decision is NOT the conjunction of
the eight required checks, contradicting the spec and the source comment
saying only accept if all required fields match: the final loop iteration
overwrites `all_match` with the `license_validity` check. -/
theorem claim_C1_thm :
    compareDecision c1_verdict = .ok "Claim Accepted" ∧
    jGet2 (normalize_comparison c1_verdict) "name" "claim_table" = some (.bool false) :=
  ⟨rfl, rfl⟩

/-- Claim C2: for every parsed verdict, the decision computed after
normalization is "Claim Accepted" exactly when the normalized
`license_validity` leaf is true; the seven other required fields have no
effect, because the `license_validity` iteration is last and assigns the
accumulated result. -/
theorem claim_C2_thm (data : Json) :
    compareDecision data =
      .ok (if normLV data then "Claim Accepted" else "Claim Rejected") ∧
    (compareDecision data = .ok "Claim Accepted" ↔ normLV data = true) := by
  have key : compareDecision data =
      .ok (if normLV data then "Claim Accepted" else "Claim Rejected") := by
    cases data with
    | obj m =>
      show decisionOf (normalize_comparison (.obj m)) = _
      rw [show normalize_comparison (.obj m) =
        mkVerdict (normSub m "name" "claim_table")
          (normSub m "license_no" "claim_table") (normSub m "license_no" "dl_table")
          (normSub m "address" "claim_table") (normSub m "address" "dl_table")
          (normSub m "car_make" "claim_car") (normSub m "car_model" "claim_car")
          (normSub m "car_color" "claim_car") (normSub m "damage_details" "claim_car")
          (pyTruthy (dGetD m "license_validity" (.bool false))) from rfl]
      rw [decisionOf, allMatch_mkVerdict]
      rfl
    | null => rfl
    | bool b => rfl
    | num n => rfl
    | str s => rfl
    | arr l => rfl
  refine ⟨key, ?_⟩
  rw [key]
  cases h : normLV data <;> simp

/-- Concrete parsed verdict for C4: `license_validity` arrives as the nested
mapping with a false `value`. -/
def c4_verdict : Json :=
  .obj [("license_validity", .obj [("value", .bool false)])]

/-- Claim C4 (code bug evaluation): an input `license_validity` of the nested
mapping with value false normalizes to `true` (a non-empty dict is truthy
under the `bool()` coercion of `normalize_comparison`), and the decision
becomes "Claim Accepted" — not `false`/rejection as the spec and the (dead)
value-unwrapping branch of the decision loop intend.  The unwrapping branch
is unreachable because normalization has already replaced the mapping by a
boolean. -/
theorem claim_C4_thm :
    jGet (normalize_comparison c4_verdict) "license_validity" = some (.bool true) ∧
    compareDecision c4_verdict = .ok "Claim Accepted" :=
  ⟨rfl, rfl⟩

/-- Concrete partial verdict for C5: a present subfield holding a truthy
non-boolean. -/
def c5_input : Json :=
  .obj [("name", .obj [("claim_table", .str "yes")])]

/-- Claim C5 counterexample: a non-boolean truthy subfield (the string "yes")
does NOT default to `false`; `normalize_comparison` coerces it by truthiness
to `true`, refuting the claim that every non-boolean field or subfield
defaults to false. -/
theorem claim_C5_cex :
    jGet2 (normalize_comparison c5_input) "name" "claim_table" = some (.bool true) :=
  rfl

/-- Claim C5 (amended): `normalize_comparison` is total and schema-fixing —
every output has the full fixed schema; non-dict inputs give the all-false
schema; an absent field, a non-mapping compound field, and an absent subfield
default to `false`; a present subfield value is coerced by Python truthiness
(so explicitly-true booleans are preserved, but truthy non-booleans also
normalize to `true`), and `license_validity` is likewise coerced by
truthiness. -/
theorem claim_C5_thm :
    (∀ data : Json, ∃ b1 b2 b3 b4 b5 b6 b7 b8 b9 b10 : Bool,
      normalize_comparison data = mkVerdict b1 b2 b3 b4 b5 b6 b7 b8 b9 b10) ∧
    (∀ data : Json, (∀ m, data ≠ .obj m) →
      normalize_comparison data =
        mkVerdict false false false false false false false false false false) ∧
    (∀ m k sk, m.lookup k = none → normSub m k sk = false) ∧
    (∀ m k sk v, m.lookup k = some v → (∀ s, v ≠ .obj s) → normSub m k sk = false) ∧
    (∀ m k sk s, m.lookup k = some (.obj s) → s.lookup sk = none →
      normSub m k sk = false) ∧
    (∀ m k sk s v, m.lookup k = some (.obj s) → s.lookup sk = some v →
      normSub m k sk = pyTruthy v) ∧
    (∀ m v, m.lookup "license_validity" = some v →
      jGet (normalize_comparison (.obj m)) "license_validity" =
        some (.bool (pyTruthy v))) := by
  refine ⟨?_, ?_, ?_, ?_, ?_, ?_, ?_⟩
  · intro data
    cases data with
    | obj m => exact ⟨_, _, _, _, _, _, _, _, _, _, rfl⟩
    | null => exact ⟨_, _, _, _, _, _, _, _, _, _, rfl⟩
    | bool b => exact ⟨_, _, _, _, _, _, _, _, _, _, rfl⟩
    | num n => exact ⟨_, _, _, _, _, _, _, _, _, _, rfl⟩
    | str s => exact ⟨_, _, _, _, _, _, _, _, _, _, rfl⟩
    | arr l => exact ⟨_, _, _, _, _, _, _, _, _, _, rfl⟩
  · intro data h
    cases data with
    | obj m => exact absurd rfl (h m)
    | null => rfl
    | bool b => rfl
    | num n => rfl
    | str s => rfl
    | arr l => rfl
  · intro m k sk h
    simp [normSub, dGetD, h, asDict, pyTruthy]
  · intro m k sk v h hno
    cases v with
    | obj s => exact absurd rfl (hno s)
    | null => simp [normSub, dGetD, h, asDict, pyTruthy]
    | bool b => simp [normSub, dGetD, h, asDict, pyTruthy]
    | num n => simp [normSub, dGetD, h, asDict, pyTruthy]
    | str s => simp [normSub, dGetD, h, asDict, pyTruthy]
    | arr l => simp [normSub, dGetD, h, asDict, pyTruthy]
  · intro m k sk s h hs
    simp [normSub, dGetD, h, asDict, hs, pyTruthy]
  · intro m k sk s v h hs
    simp [normSub, dGetD, h, asDict, hs, pyTruthy]
  · intro m v h
    rw [show normalize_comparison (.obj m) =
      mkVerdict (normSub m "name" "claim_table")
        (normSub m "license_no" "claim_table") (normSub m "license_no" "dl_table")
        (normSub m "address" "claim_table") (normSub m "address" "dl_table")
        (normSub m "car_make" "claim_car") (normSub m "car_model" "claim_car")
        (normSub m "car_color" "claim_car") (normSub m "damage_details" "claim_car")
        (pyTruthy (dGetD m "license_validity" (.bool false))) from rfl]
    rw [jGet_mkVerdict_lv, dGetD, h]
    rfl

/-- Claim C5 witness: the amended theorem applied at concrete inputs — an
absent field defaults to false, and the counterexample subfield is coerced by
truthiness. -/
theorem claim_C5_witness :
    normSub [] "name" "claim_table" = false ∧
    normSub [("name", Json.obj [("claim_table", Json.str "yes")])] "name" "claim_table" =
      pyTruthy (Json.str "yes") :=
  ⟨claim_C5_thm.2.2.1 [] "name" "claim_table" rfl,
   claim_C5_thm.2.2.2.2.2.1 [("name", Json.obj [("claim_table", Json.str "yes")])]
     "name" "claim_table" [("claim_table", Json.str "yes")] (Json.str "yes") rfl rfl⟩

/-- Dates from 1930 on are untouched by the two-digit-year windowing line. -/
theorem fixY2_high (fmt : String) (d : Date) (h : 1930 ≤ d.year) :
    fixY2 fmt d = some d := by
  unfold fixY2
  have hd : decide (d.year < 1930) = false := decide_eq_false (by omega)
  simp [hd]

/-- Claim C6 counterexample: the two-digit year 35 parses to 2035, not to
1935 as the claim states — strptime already resolves 00..68 into the 2000s,
so the pivot sits at 69, not at 30. -/
theorem claim_C6_cex :
    parse_date "01/01/35" = some ⟨2035, 1, 1⟩ ∧
    (⟨2035, 1, 1⟩ : Date) ≠ (⟨1935, 1, 1⟩ : Date) :=
  ⟨rfl, by decide⟩

/-- Claim C6 (amended): two-digit years follow the strptime POSIX pivot —
00..68 resolve into 2000..2068 and 69..99 into 1969..1999 — and the explicit
sub-1930 windowing adjustment of `parse_date` never fires, because every
resolved two-digit year is at least 1969.  Concretely "05" gives 2005 and
"95" gives 1995 as the claim states, but "35" gives 2035, not 1935. -/
theorem claim_C6_thm :
    (∀ yy m d : Nat, yy ≤ 99 →
      fixY2 "%d/%m/%y" ⟨resolveY2 yy, m, d⟩ =
        some ⟨if yy ≤ 68 then 2000 + yy else 1900 + yy, m, d⟩) ∧
    parse_date "01/01/05" = some ⟨2005, 1, 1⟩ ∧
    parse_date "01/01/95" = some ⟨1995, 1, 1⟩ ∧
    parse_date "01/01/35" = some ⟨2035, 1, 1⟩ := by
  refine ⟨?_, rfl, rfl, rfl⟩
  intro yy m d _
  by_cases h68 : yy ≤ 68
  · rw [show resolveY2 yy = 2000 + yy from if_pos h68,
      fixY2_high _ _ (show 1930 ≤ 2000 + yy by omega), if_pos h68]
  · rw [show resolveY2 yy = 1900 + yy from if_neg h68,
      fixY2_high _ _ (show 1930 ≤ 1900 + yy by omega), if_neg h68]

/-- Claim C6 witness: the amended theorem applied at the two-digit year 35. -/
theorem claim_C6_witness :
    fixY2 "%d/%m/%y" ⟨resolveY2 35, 1, 1⟩ = some ⟨2035, 1, 1⟩ :=
  claim_C6_thm.1 35 1 1 (by omega)

/-- Claim C7: `parse_date` tries exactly the formats day/month/4-digit-year,
day/month/2-digit-year, month/day/4-digit-year, month/day/2-digit-year, ISO
year-month-day, in that order, returning the first success; the ambiguous
"03/04/05" is resolved day-first as 2005-04-03 (even though the month-first
pattern would also accept it, as 2005-03-04); an unparseable input returns
`none` rather than raising. -/
theorem claim_C7_thm :
    formats = ["%d/%m/%Y", "%d/%m/%y", "%m/%d/%Y", "%m/%d/%y", "%Y-%m-%d"] ∧
    (∀ s : String, s ≠ "" →
      ((tryFormat "%d/%m/%Y" (pyStrip s)).isSome →
        parse_date s = tryFormat "%d/%m/%Y" (pyStrip s)) ∧
      (tryFormat "%d/%m/%Y" (pyStrip s) = none → (tryFormat "%d/%m/%y" (pyStrip s)).isSome →
        parse_date s = tryFormat "%d/%m/%y" (pyStrip s)) ∧
      (tryFormat "%d/%m/%Y" (pyStrip s) = none → tryFormat "%d/%m/%y" (pyStrip s) = none →
        (tryFormat "%m/%d/%Y" (pyStrip s)).isSome →
        parse_date s = tryFormat "%m/%d/%Y" (pyStrip s)) ∧
      (tryFormat "%d/%m/%Y" (pyStrip s) = none → tryFormat "%d/%m/%y" (pyStrip s) = none →
        tryFormat "%m/%d/%Y" (pyStrip s) = none → (tryFormat "%m/%d/%y" (pyStrip s)).isSome →
        parse_date s = tryFormat "%m/%d/%y" (pyStrip s)) ∧
      (tryFormat "%d/%m/%Y" (pyStrip s) = none → tryFormat "%d/%m/%y" (pyStrip s) = none →
        tryFormat "%m/%d/%Y" (pyStrip s) = none → tryFormat "%m/%d/%y" (pyStrip s) = none →
        parse_date s = tryFormat "%Y-%m-%d" (pyStrip s))) ∧
    parse_date "03/04/05" = some ⟨2005, 4, 3⟩ ∧
    tryFormat "%m/%d/%y" "03/04/05" = some ⟨2005, 3, 4⟩ ∧
    parse_date "2005-04-03" = some ⟨2005, 4, 3⟩ ∧
    parse_date "hello" = none := by
  refine ⟨rfl, ?_, rfl, rfl, rfl, rfl⟩
  intro s hs
  have hp : parse_date s = formats.findSome? (fun fmt => tryFormat fmt (pyStrip s)) := by
    rw [parse_date, if_neg hs]
  refine ⟨?_, ?_, ?_, ?_, ?_⟩
  · intro h1
    rcases e1 : tryFormat "%d/%m/%Y" (pyStrip s) with _ | d
    · rw [e1] at h1; simp at h1
    · rw [hp]; simp [formats, List.findSome?, e1]
  · intro e1 h2
    rcases e2 : tryFormat "%d/%m/%y" (pyStrip s) with _ | d
    · rw [e2] at h2; simp at h2
    · rw [hp]; simp [formats, List.findSome?, e1, e2]
  · intro e1 e2 h3
    rcases e3 : tryFormat "%m/%d/%Y" (pyStrip s) with _ | d
    · rw [e3] at h3; simp at h3
    · rw [hp]; simp [formats, List.findSome?, e1, e2, e3]
  · intro e1 e2 e3 h4
    rcases e4 : tryFormat "%m/%d/%y" (pyStrip s) with _ | d
    · rw [e4] at h4; simp at h4
    · rw [hp]; simp [formats, List.findSome?, e1, e2, e3, e4]
  · intro e1 e2 e3 e4
    rw [hp]; simp [formats, List.findSome?, e1, e2, e3, e4]
    cases tryFormat "%Y-%m-%d" (pyStrip s) <;> rfl

/-- Claim C7 witness: the priority applied to the ambiguous "03/04/05" — the
day-first four-digit pattern fails, the day-first two-digit pattern succeeds
and supplies the result. -/
theorem claim_C7_witness :
    parse_date "03/04/05" = tryFormat "%d/%m/%y" (pyStrip "03/04/05") :=
  (claim_C7_thm.2.1 "03/04/05" (by decide)).2.1 rfl rfl

/-- Concrete extraction result for C3: a license number containing a space. -/
def c3_result : Json :=
  .obj [("license_no", .str "AB 123")]

/-- Claim C3 counterexample: an extracted license number with a space makes
`extract_dl` raise `ValueError` — the run DOES fail, and nothing is surfaced
via the step log, contradicting the claim that extraction output is still
returned and the outcome surfaced via the step log. -/
theorem claim_C3_cex :
    extract_dl c3_result (fun _ => none) = ([], .error .valueError) :=
  rfl

/-- Claim C3 (amended): if the extracted license number is present (truthy)
but contains a character outside letters, digits, hyphen, and underscore,
`extract_dl` performs no table lookup and no upsert for that record, and it
raises `ValueError`, aborting the stage (and hence the run): the extraction
output is not returned and nothing is surfaced via the step log.  Only a
missing (falsy) license number is surfaced via the step log. -/
theorem claim_C3_thm (mr : List (String × Json)) (fetch : String → Option Json)
    (s : String) (hlic : safe_extract (dGetD mr "license_no" .null) = .str s)
    (hne : s ≠ "") (hbad : licenseRegexOk s = false) :
    extract_dl (.obj mr) fetch = ([], .error .valueError) := by
  have ht : pyTruthy (Json.str s) = true := by simp [pyTruthy, hne]
  simp only [extract_dl, hlic, ht, if_true]
  simp [hbad]

/-- Claim C3 witness: the amended theorem applied to the space-containing
license number "AB 123". -/
theorem claim_C3_witness :
    extract_dl (.obj [("license_no", .str "AB 123")]) (fun _ => none) =
      ([], .error .valueError) :=
  claim_C3_thm [("license_no", .str "AB 123")] (fun _ => none) "AB 123"
    rfl (by decide) rfl

/-- An item of a list argument that the `safe_extract` loop would accept: a
dict containing a `"value"` key. -/
def hasValueB : Json → Bool
  | .obj m => (m.lookup "value").isSome
  | _ => false

/-- On a list with no dict-with-`"value"` item, the `safe_extract` loop finds
nothing. -/
theorem findValue_none {l : List Json} (h : ∀ y ∈ l, hasValueB y = false) :
    findValue l = none := by
  induction l with
  | nil => rfl
  | cons x t ih =>
    have hx := h x (List.mem_cons_self x t)
    have ht := ih (fun y hy => h y (List.mem_cons_of_mem x hy))
    cases x with
    | obj m =>
      simp only [hasValueB] at hx
      simp [findValue, hx, ht]
    | null => simp [findValue, ht]
    | bool b => simp [findValue, ht]
    | num n => simp [findValue, ht]
    | str s => simp [findValue, ht]
    | arr l2 => simp [findValue, ht]

/-- The `safe_extract` loop returns the `"value"` entry of the first
dict-with-`"value"` item. -/
theorem findValue_found {l1 : List Json} {m : List (String × Json)} {l2 : List Json}
    {v : Json} (h : ∀ y ∈ l1, hasValueB y = false) (hv : m.lookup "value" = some v) :
    findValue (l1 ++ .obj m :: l2) = some v := by
  induction l1 with
  | nil => simp [findValue, hv]
  | cons x t ih =>
    have hx := h x (List.mem_cons_self x t)
    have ht := ih (fun y hy => h y (List.mem_cons_of_mem x hy))
    cases x with
    | obj m2 =>
      simp only [hasValueB] at hx
      simp [findValue, hx, ht]
    | null => simp [findValue, ht]
    | bool b => simp [findValue, ht]
    | num n => simp [findValue, ht]
    | str s => simp [findValue, ht]
    | arr l3 => simp [findValue, ht]

/-- Claim C8 counterexample: a mapping without a `"value"` key is NOT
returned unchanged — `safe_extract` returns `None` for it (the `dict.get`
default), refuting the claim that unmatched shapes yield the raw input. -/
theorem claim_C8_cex :
    safe_extract (.obj [("foo", .num 1)]) = .null ∧
    Json.null ≠ .obj [("foo", .num 1)] :=
  ⟨rfl, fun h => Json.noConfusion h⟩

/-- Claim C8 (amended): `safe_extract` is total and never raises; it returns
`None` for every falsy input (absent, empty sequence/mapping, and also the
falsy scalars 0, empty string, `False`); for a non-empty sequence it returns
the `"value"` entry of the first element that is a mapping with a `"value"`
key, or the FIRST ELEMENT (not the raw input) when no such element exists;
for a mapping it returns its `"value"` entry, or `None` (not the raw input)
when that key is absent; a truthy bare scalar is returned unchanged. -/
theorem claim_C8_thm :
    (∀ f : Json, pyTruthy f = false → safe_extract f = .null) ∧
    (∀ m : List (String × Json), m ≠ [] →
      safe_extract (.obj m) = (m.lookup "value").getD .null) ∧
    (∀ x : Json, ∀ l : List Json, (∀ y ∈ x :: l, hasValueB y = false) →
      safe_extract (.arr (x :: l)) = x) ∧
    (∀ l1 : List Json, ∀ m : List (String × Json), ∀ l2 : List Json, ∀ v : Json,
      (∀ y ∈ l1, hasValueB y = false) → m.lookup "value" = some v →
      safe_extract (.arr (l1 ++ .obj m :: l2)) = v) ∧
    (∀ n : Int, n ≠ 0 → safe_extract (.num n) = .num n) ∧
    (∀ s : String, s ≠ "" → safe_extract (.str s) = .str s) ∧
    safe_extract (.bool true) = .bool true := by
  refine ⟨?_, ?_, ?_, ?_, ?_, ?_, rfl⟩
  · intro f h
    cases f with
    | null => rfl
    | bool b =>
      rw [show b = false from by simpa [pyTruthy] using h]
      rfl
    | num n =>
      have hn : n = 0 := by simpa [pyTruthy] using h
      subst hn; rfl
    | str s =>
      have hs : s = "" := by simpa [pyTruthy] using h
      subst hs; rfl
    | arr l =>
      have hl : l = [] := by simpa [pyTruthy] using h
      subst hl; rfl
    | obj m =>
      have hm : m = [] := by simpa [pyTruthy] using h
      subst hm; rfl
  · intro m hm
    have ht : pyTruthy (Json.obj m) = true := by simp [pyTruthy, hm]
    simp [safe_extract, ht]
  · intro x l h
    have ht : pyTruthy (Json.arr (x :: l)) = true := by simp [pyTruthy]
    simp [safe_extract, ht, findValue_none h, List.headD]
  · intro l1 m l2 v h hv
    have ht : pyTruthy (Json.arr (l1 ++ .obj m :: l2)) = true := by
      simp [pyTruthy]
    simp [safe_extract, ht, findValue_found h hv]
  · intro n hn
    have ht : pyTruthy (Json.num n) = true := by simp [pyTruthy, hn]
    simp [safe_extract, ht]
  · intro s hs
    have ht : pyTruthy (Json.str s) = true := by simp [pyTruthy, hs]
    simp [safe_extract, ht]

/-- Claim C8 witness: the amended theorem applied at concrete inputs — the
falsy scalar 0 gives `None`, and a list whose second element is the first
dict-with-`"value"` gives that value, not the value of the first element. -/
theorem claim_C8_witness :
    safe_extract (.num 0) = .null ∧
    safe_extract (.arr [.num 1, .obj [("value", .str "v")]]) = .str "v" :=
  ⟨claim_C8_thm.1 (.num 0) rfl,
   claim_C8_thm.2.2.2.1 [.num 1] [("value", .str "v")] [] (.str "v")
     (by intro y hy; simp only [List.mem_singleton] at hy; subst hy; rfl) rfl⟩

/-- Claim C9: the compiled graph executes the five stages strictly in the
fixed order upload, extract-license, extract-claim, extract-vehicle,
reconcile-and-decide; when every stage appends exactly one step entry, a
completed run carries exactly the five entries in execution order; and a
stage failure makes the whole invocation fail with no partial state. -/
theorem claim_C9_thm {σ ε : Type} (f : String → σ → Except ε (σ × List String))
    (s0 : σ)
    (hstep : ∀ n s s2 es, n ∈ pipelineOrder → f n s = .ok (s2, es) → es.length = 1) :
    pipelineOrder = ["upload", "extract_dl", "extract_claim", "extract_car",
      "compare_email"] ∧
    (∀ out, run_claim_processing_workflow f s0 = .ok out →
      ∃ s1 s2 s3 s4 s5 e1 e2 e3 e4 e5,
        f "upload" s0 = .ok (s1, [e1]) ∧
        f "extract_dl" s1 = .ok (s2, [e2]) ∧
        f "extract_claim" s2 = .ok (s3, [e3]) ∧
        f "extract_car" s3 = .ok (s4, [e4]) ∧
        f "compare_email" s4 = .ok (s5, [e5]) ∧
        out = (s5, [e1, e2, e3, e4, e5])) ∧
    (∀ e, f "upload" s0 = .error e →
      run_claim_processing_workflow f s0 = .error e) ∧
    (∀ s1 l1 e, f "upload" s0 = .ok (s1, l1) → f "extract_dl" s1 = .error e →
      run_claim_processing_workflow f s0 = .error e) ∧
    (∀ s1 l1 s2 l2 e, f "upload" s0 = .ok (s1, l1) →
      f "extract_dl" s1 = .ok (s2, l2) → f "extract_claim" s2 = .error e →
      run_claim_processing_workflow f s0 = .error e) ∧
    (∀ s1 l1 s2 l2 s3 l3 e, f "upload" s0 = .ok (s1, l1) →
      f "extract_dl" s1 = .ok (s2, l2) → f "extract_claim" s2 = .ok (s3, l3) →
      f "extract_car" s3 = .error e →
      run_claim_processing_workflow f s0 = .error e) ∧
    (∀ s1 l1 s2 l2 s3 l3 s4 l4 e, f "upload" s0 = .ok (s1, l1) →
      f "extract_dl" s1 = .ok (s2, l2) → f "extract_claim" s2 = .ok (s3, l3) →
      f "extract_car" s3 = .ok (s4, l4) → f "compare_email" s4 = .error e →
      run_claim_processing_workflow f s0 = .error e) := by
  have hord : pipelineOrder = ["upload", "extract_dl", "extract_claim",
      "extract_car", "compare_email"] := rfl
  have hrun : run_claim_processing_workflow f s0 =
      runNodes f ["upload", "extract_dl", "extract_claim", "extract_car",
        "compare_email"] (s0, []) := by
    rw [run_claim_processing_workflow, hord]
  refine ⟨hord, ?_, ?_, ?_, ?_, ?_, ?_⟩
  · intro out hout
    rw [hrun] at hout
    rcases h1 : f "upload" s0 with e1 | ⟨s1, l1⟩
    · simp only [runNodes, h1] at hout
      exact Except.noConfusion hout
    simp only [runNodes, h1] at hout
    obtain ⟨e1, he1⟩ := List.length_eq_one.mp (hstep _ _ _ _ (by rw [hord]; simp) h1)
    subst he1
    rcases h2 : f "extract_dl" s1 with e2 | ⟨s2, l2⟩
    · simp only [runNodes, h2] at hout
      exact Except.noConfusion hout
    simp only [runNodes, h2] at hout
    obtain ⟨e2, he2⟩ := List.length_eq_one.mp (hstep _ _ _ _ (by rw [hord]; simp) h2)
    subst he2
    rcases h3 : f "extract_claim" s2 with e3 | ⟨s3, l3⟩
    · simp only [runNodes, h3] at hout
      exact Except.noConfusion hout
    simp only [runNodes, h3] at hout
    obtain ⟨e3, he3⟩ := List.length_eq_one.mp (hstep _ _ _ _ (by rw [hord]; simp) h3)
    subst he3
    rcases h4 : f "extract_car" s3 with e4 | ⟨s4, l4⟩
    · simp only [runNodes, h4] at hout
      exact Except.noConfusion hout
    simp only [runNodes, h4] at hout
    obtain ⟨e4, he4⟩ := List.length_eq_one.mp (hstep _ _ _ _ (by rw [hord]; simp) h4)
    subst he4
    rcases h5 : f "compare_email" s4 with e5 | ⟨s5, l5⟩
    · simp only [runNodes, h5] at hout
      exact Except.noConfusion hout
    simp only [runNodes, h5] at hout
    obtain ⟨e5, he5⟩ := List.length_eq_one.mp (hstep _ _ _ _ (by rw [hord]; simp) h5)
    subst he5
    refine ⟨s1, s2, s3, s4, s5, e1, e2, e3, e4, e5, rfl, h2, h3, h4, h5, ?_⟩
    simpa using hout.symm
  · intro e h1
    rw [hrun]
    simp only [runNodes, h1]
  · intro s1 l1 e h1 h2
    rw [hrun]
    simp only [runNodes, h1, h2]
  · intro s1 l1 s2 l2 e h1 h2 h3
    rw [hrun]
    simp only [runNodes, h1, h2, h3]
  · intro s1 l1 s2 l2 s3 l3 e h1 h2 h3 h4
    rw [hrun]
    simp only [runNodes, h1, h2, h3, h4]
  · intro s1 l1 s2 l2 s3 l3 s4 l4 e h1 h2 h3 h4 h5
    rw [hrun]
    simp only [runNodes, h1, h2, h3, h4, h5]

/-- Claim C9 witness: the theorem applied to a concrete node assignment in
which the extract-claim stage raises — the run fails with that error and no
partial state. -/
theorem claim_C9_witness :
    run_claim_processing_workflow
      (fun n (s : Nat) =>
        if n = "extract_claim" then Except.error 7 else Except.ok (s + 1, [n])) 0 =
      Except.error 7 := by
  refine (claim_C9_thm _ 0 ?_).2.2.2.2.1 1 ["upload"] 2 ["extract_dl"] 7
    (by simp) (by simp) (by simp)
  intro n s s2 es _ h
  by_cases hn : n = "extract_claim"
  · rw [if_pos hn] at h
    exact absurd h (by simp)
  · rw [if_neg hn] at h
    obtain ⟨rfl, rfl⟩ : s + 1 = s2 ∧ [n] = es := by
      have := Except.ok.inj h
      exact ⟨congrArg Prod.fst this, congrArg Prod.snd this⟩
    rfl

/-- Shape condition on a field of the claim-extraction result under which,
per the original claim, `extract_claim` can complete: the field is absent or
a non-empty sequence whose first element is a mapping. -/
def goodFieldShape : Option Json → Bool
  | none => true
  | some (.arr (.obj _ :: _)) => true
  | some _ => false

/-- Concrete claim-extraction result for C10: the description text matches
the color pattern while the vehicle field is a bare string. -/
def c10_claim_doc : List (String × Json) :=
  [("description", .arr [.obj [("value", .str "Color: red")]]),
   ("vehicle", .str "junk")]

/-- Claim C10 counterexample: `extract_claim` COMPLETES on a result whose
vehicle field is a bare string, because the description field already yields
a color match and the loop breaks before inspecting vehicle — refuting the
claim that completion requires each of the two fields to be absent or a
non-empty sequence with a mapping first element. -/
theorem claim_C10_cex :
    extract_claim (.obj c10_claim_doc) =
      .ok (.obj [("description", .arr [.obj [("value", .str "Color: red")]]),
                 ("vehicle", .str "junk"),
                 ("car_color", .arr [.obj [("value", .str "red")]])]) ∧
    goodFieldShape (c10_claim_doc.lookup "vehicle") = false :=
  ⟨rfl, rfl⟩

/-- Claim C10 (amended): the color heuristic inspects `description` and then
`vehicle`, stopping at the first match, and completes only when every field
it actually inspects yields a usable text (in particular vehicle is never
inspected when description matches); for outputs where an inspected field is
present as a bare string, a plain mapping, or an empty sequence,
`extract_claim` raises (`AttributeError`, `KeyError`, `IndexError`
respectively) instead of returning a best-effort result. -/
theorem claim_C10_thm :
    (∀ (m : List (String × Json)) (r : Json), extract_claim (.obj m) = .ok r →
      isOkE (fieldText m "description") = true ∧
      (∀ t, fieldText m "description" = .ok t → colorSearch t = none →
        isOkE (fieldText m "vehicle") = true)) ∧
    extract_claim (.obj [("description", .str "bare")]) = .error .attributeError ∧
    extract_claim (.obj [("description", .obj [("value", .str "t")])]) =
      .error .keyError ∧
    extract_claim (.obj [("description", .arr [])]) = .error .indexError := by
  refine ⟨?_, rfl, rfl, rfl⟩
  intro m r h
  rcases hd : fieldText m "description" with e | t1
  · simp only [extract_claim, hd] at h
    exact Except.noConfusion h
  · refine ⟨by simp [isOkE], ?_⟩
    intro t ht hcs
    obtain rfl : t1 = t := Except.ok.inj ht
    simp only [extract_claim, hd, hcs] at h
    rcases hv : fieldText m "vehicle" with e | t2
    · simp only [hv] at h
      exact Except.noConfusion h
    · simp [isOkE]

/-- Claim C10 witness: the amended theorem applied to a result whose
description field has the accepted shape and no color match, and whose
vehicle field is absent. -/
theorem claim_C10_witness :
    isOkE (fieldText [("description", Json.arr [Json.obj []])] "description") = true :=
  (claim_C10_thm.1 [("description", Json.arr [Json.obj []])]
    (.obj [("description", Json.arr [Json.obj []])]) rfl).1

end VehicleClaims
